import Mathlib

/-!
# Verification of the GSM native-function call core (`gsmfunc.cc`)

Shallow embedding of the function-descriptor / pending-call machinery of
`gsmfunc.cc`:

* `FuncDescObj` — a function signature: entry point plus per-parameter
  metadata (`ParamInfoType`: name, declared type, optional default value).
* `CallFunctionObject` — a pending call: one argument slot per declared
  parameter, pre-seeded from the defaults, and a cursor.

`Portion*` values are modelled by addresses (`Addr := Nat`) into an explicit
heap (`Heap`), so that copying (`Portion::Copy`), deletion (`delete`) and
aliasing are expressible.  A cell of the heap holds an integer payload (the
source's examples use `numerical_Portion` values); a freed or never-allocated
cell holds `none`.

The C++ `assert`s (active in debug builds, which is the behaviour the
surrounding documentation describes) are modelled as `Except.error` outcomes,
and the messages written to the `gerr` diagnostic stream are modelled by
`ErrorKind` values carrying the names the message mentions.
-/

/-- Heap address standing for a `Portion*`. The C++ null pointer
(`NO_DEFAULT_VALUE`, empty slot) is modelled as `Option.none` at the use
sites, not as a distinguished address. -/
abbrev Addr := Nat

/-- Explicit heap of `Portion` payloads.  `data.get? a = some (some v)` means
address `a` is live and holds value `v`; `some none` means `a` was freed. -/
structure Heap where
  data : List (Option Int)
deriving DecidableEq

/-- Read the payload at address `a` (`none` if unallocated or freed). -/
def Heap.read (h : Heap) (a : Addr) : Option Int :=
  h.data.getD a none

/-- Allocate a fresh cell holding `v`; returns its address. -/
def Heap.alloc (h : Heap) (v : Int) : Addr × Heap :=
  (h.data.length, ⟨h.data ++ [some v]⟩)

/-- Mutate the payload at address `a` (models in-place update of a value). -/
def Heap.write (h : Heap) (a : Addr) (v : Int) : Heap :=
  ⟨h.data.set a (some v)⟩

/-- Source `delete p` — release the value at address `a`. -/
def Heap.free (h : Heap) (a : Addr) : Heap :=
  ⟨h.data.set a none⟩

/-- Source `Portion::Copy()` — allocate an independent copy of the value at `a`.
Copying an unallocated address is undefined behaviour in the C++; here it
copies a placeholder `0`. -/
def Portion.Copy (h : Heap) (a : Addr) : Addr × Heap :=
  h.alloc ((h.read a).getD 0)

/-- The `PortionType` runtime tags referenced by `gsmfunc.cc` (the full set lives
in `portion.h`, outside the given sources; these are the tags the source and
its usage comments mention). -/
inductive PortionType where
  | porERROR
  | porDOUBLE
  | porINTEGER
  | porRATIONAL
  | porNUMERICAL
deriving DecidableEq

/-- The error conditions `gsmfunc.cc` reports (via `gerr` messages and/or
`assert`), carrying the names the corresponding message mentions. -/
inductive ErrorKind where
  | DuplicateParameterName (paramName : String)
  | IndexOutOfRange
  | TooManyParameters (funcName : String)
  | MissingRequiredParameter (funcName paramName : String)
deriving DecidableEq

/-- Per-parameter metadata (`ParamInfoType` from `gsmfunc.h`, which is not
among the given sources).  Modelled from the spec: `{ name, declared_type,
default: optional owned Value }`; the C++ field `Type` is spelled `typ` here
because `Type` is a Lean keyword.  `DefaultValue = none` is the source's
`NO_DEFAULT_VALUE` null pointer. -/
structure ParamInfoType where
  Name : String
  typ : PortionType
  DefaultValue : Option Addr
deriving DecidableEq

/-- Modelled from the spec: a freshly allocated `ParamInfoType` slot, before
any `SetParamInfo` call: empty name, no default value, and an error tag as
the (meaningless) initial type. -/
def ParamInfoType.init : ParamInfoType :=
  ⟨"", .porERROR, none⟩

/-- The entry point of a native function: receives the raw slot array
(`Portion**`, so entries may in principle be null) together with the heap,
and returns an optional result (`Portion*`, null = general failure). -/
abbrev EntryPoint := List (Option Addr) → Heap → Option Addr × Heap

/-- The class `FuncDescObj` — the signature of one native function.  `num_of_params`
is `ParamInfo.length` (the constructor fixes both together). -/
structure FuncDescObj where
  function : EntryPoint
  ParamInfo : List ParamInfoType

namespace FuncDescObj

/-- Source `FuncDescObj::FuncDescObj(funcname, size)` — `assert(size >= 0)` is
subsumed by `size : Nat`; allocates `size` default-initialized
`ParamInfoType` slots. -/
def make (funcname : EntryPoint) (size : Nat) : FuncDescObj :=
  ⟨funcname, List.replicate size ParamInfoType.init⟩

/-- Source `FuncDescObj::NumParams()`. -/
def NumParams (f : FuncDescObj) : Nat :=
  f.ParamInfo.length

/-- Source `FuncDescObj::CallFunction(param)` — delegates to the entry point. -/
def CallFunction (f : FuncDescObj) (param : List (Option Addr)) (h : Heap) :
    Option Addr × Heap :=
  f.function param h

/-- Source `FuncDescObj::ParamName(index)` — `assert(0 <= index < num_of_params)`
modelled as `IndexOutOfRange`. -/
def ParamName (f : FuncDescObj) (index : Int) : Except ErrorKind String :=
  if 0 ≤ index ∧ index < (f.ParamInfo.length : Int) then
    .ok (f.ParamInfo.getD index.toNat ParamInfoType.init).Name
  else
    .error .IndexOutOfRange

/-- Source `FuncDescObj::ParamType(index)`. -/
def ParamType (f : FuncDescObj) (index : Int) : Except ErrorKind PortionType :=
  if 0 ≤ index ∧ index < (f.ParamInfo.length : Int) then
    .ok (f.ParamInfo.getD index.toNat ParamInfoType.init).typ
  else
    .error .IndexOutOfRange

/-- Source `FuncDescObj::ParamDefaultValue(index)` — null (`none`) when no default
was declared, otherwise `DefaultValue->Copy()`, a fresh copy. -/
def ParamDefaultValue (f : FuncDescObj) (index : Int) (h : Heap) :
    Except ErrorKind (Option Addr × Heap) :=
  if 0 ≤ index ∧ index < (f.ParamInfo.length : Int) then
    match (f.ParamInfo.getD index.toNat ParamInfoType.init).DefaultValue with
    | none => .ok (none, h)
    | some a => .ok (let c := Portion.Copy h a; (some c.1, c.2))
  else
    .error .IndexOutOfRange

/-- Source `FuncDescObj::FindParamName(name)` — linear scan returning the first
index whose name matches, `-1` when none does. -/
def FindParamName (f : FuncDescObj) (name : String) : Int :=
  match f.ParamInfo.findIdx? (fun pinfo => pinfo.Name = name) with
  | none => -1
  | some i => (i : Int)

/-- Source `FuncDescObj::SetParamInfo(index, name, type, default_value)`.
The index `assert` and — in the debug build the surrounding documentation
describes — the `assert(!repeated_variable_declaration)` after the
duplicate-name report are modelled as errors; a failed declaration therefore
yields no updated signature.  On success all three fields at `index` are
overwritten.  Note the duplicate scan runs over *all* slots, including
`index` itself. -/
def SetParamInfo (f : FuncDescObj) (index : Int) (name : String)
    (typ : PortionType) (default_value : Option Addr) :
    Except ErrorKind FuncDescObj :=
  if 0 ≤ index ∧ index < (f.ParamInfo.length : Int) then
    if f.ParamInfo.any (fun pinfo => pinfo.Name = name) then
      .error (.DuplicateParameterName name)
    else
      .ok ⟨f.function, f.ParamInfo.set index.toNat ⟨name, typ, default_value⟩⟩
  else
    .error .IndexOutOfRange

end FuncDescObj

/-- One step of the slot-seeding loop of the `CallFunctionObject` constructor:
`param[i] = func_desc_obj->ParamDefaultValue(i)` — a fresh copy of the
declared default, or null (`none`) when there is none. -/
def seedSlot (pinfo : ParamInfoType) (h : Heap) : Option Addr × Heap :=
  match pinfo.DefaultValue with
  | none => (none, h)
  | some a => let c := Portion.Copy h a; (some c.1, c.2)

/-- The constructor's loop over all parameter indices, threading the heap. -/
def seedSlots : List ParamInfoType → Heap → List (Option Addr) × Heap
  | [], h => ([], h)
  | pinfo :: rest, h =>
    let s := seedSlot pinfo h
    let r := seedSlots rest s.2
    (s.1 :: r.1, r.2)

/-- The class `CallFunctionObject` — a pending call: borrowed signature, one owned
slot per declared parameter, and the cursor `current_param_index` (an `int`
in the source, hence `Int`: `SetCurrParamIndex` performs no bounds check). -/
structure CallFunctionObject where
  func_name : String
  func_desc_obj : FuncDescObj
  param : List (Option Addr)
  current_param_index : Int

namespace CallFunctionObject

/-- Source `CallFunctionObject::CallFunctionObject(name, func)` — allocates
`NumParams` slots, seeds slot `i` with `ParamDefaultValue(i)` and starts the
cursor at `0`. -/
def make (name : String) (func : FuncDescObj) (h : Heap) :
    CallFunctionObject × Heap :=
  let r := seedSlots func.ParamInfo h
  (⟨name, func, r.1, 0⟩, r.2)

/-- Source `CallFunctionObject::GetCurrParamType()` — declared type at the cursor;
at or past the parameter count it reports too-many-parameters (the
`Option ErrorKind` component) and returns `porERROR` instead of failing.
A negative cursor trips `ParamType`'s index `assert`. -/
def GetCurrParamType (c : CallFunctionObject) :
    Except ErrorKind (PortionType × Option ErrorKind) :=
  if c.current_param_index < (c.func_desc_obj.NumParams : Int) then
    match c.func_desc_obj.ParamType c.current_param_index with
    | .ok t => .ok (t, none)
    | .error e => .error e
  else
    .ok (.porERROR, some (.TooManyParameters c.func_name))

/-- Source `CallFunctionObject::SetCurrParam(new_param)` — in range: `delete` the
current occupant (if any), store the new value, advance the cursor; out of
range: report too-many-parameters and change nothing (the new value is
silently dropped, exactly as in the source).  A negative in-range cursor
would index the slot array out of bounds in the C++ (no check exists there);
that undefined behaviour is modelled as `IndexOutOfRange`. -/
def SetCurrParam (c : CallFunctionObject) (new_param : Addr) (h : Heap) :
    Except ErrorKind (CallFunctionObject × Heap × Option ErrorKind) :=
  if c.current_param_index < (c.func_desc_obj.NumParams : Int) then
    if 0 ≤ c.current_param_index then
      let i := c.current_param_index.toNat
      let h1 := match c.param.getD i none with
        | some old => h.free old
        | none => h
      .ok (⟨c.func_name, c.func_desc_obj, c.param.set i (some new_param),
            c.current_param_index + 1⟩, h1, none)
    else
      .error .IndexOutOfRange
  else
    .ok (c, h, some (.TooManyParameters c.func_name))

/-- Source `CallFunctionObject::SetCurrParamIndex(index)` — repositions the cursor,
with no validation of any kind. -/
def SetCurrParamIndex (c : CallFunctionObject) (index : Int) :
    CallFunctionObject :=
  ⟨c.func_name, c.func_desc_obj, c.param, index⟩

/-- Source `CallFunctionObject::GetCurrParamIndex()`. -/
def GetCurrParamIndex (c : CallFunctionObject) : Int :=
  c.current_param_index

/-- Source `CallFunctionObject::FindParamName(name)` — delegates to the
signature. -/
def FindParamName (c : CallFunctionObject) (name : String) : Int :=
  c.func_desc_obj.FindParamName name

/-- Source `CallFunctionObject::FuncName()`. -/
def FuncName (c : CallFunctionObject) : String :=
  c.func_name

/-- The parameter name mentioned by the missing-parameter report
(`func_desc_obj->ParamName(i)`; inside `CallFunction` the index is always in
range, since the loop bound is the parameter count). -/
def paramNameD (f : FuncDescObj) (i : Nat) : String :=
  ((f.ParamInfo.get? i).map ParamInfoType.Name).getD ""

/-- The completeness-check loop of `CallFunctionObject::CallFunction`: walk
the slots from index `s`; at the first null slot produce the
missing-required-parameter report (naming the function and that parameter).
The source loop runs `i` from `0` to `NumParams - 1` over `param[i]`; the
slot list has exactly `NumParams` entries by construction. -/
def callLoop (f : FuncDescObj) (fn : String) :
    Nat → List (Option Addr) → Option ErrorKind
  | _, [] => none
  | i, none :: _ => some (.MissingRequiredParameter fn (paramNameD f i))
  | i, some _ :: rest => callLoop f fn (i + 1) rest

/-- Source `CallFunctionObject::CallFunction()` — verifies every slot is non-null;
on the first null slot reports missing-required-parameter and returns null
without invoking the entry point; otherwise delegates the whole slot array
to the entry point.  The final `Nat` instruments how many times the entry
point was invoked (0 or 1). -/
def CallFunction (c : CallFunctionObject) (h : Heap) :
    Option Addr × Heap × Option ErrorKind × Nat :=
  match callLoop c.func_desc_obj c.func_name 0 c.param with
  | some e => (none, h, some e, 0)
  | none =>
    let r := c.func_desc_obj.CallFunction c.param h
    (r.1, r.2, none, 1)

end CallFunctionObject

/-! ## Concrete fixtures used by examples and witnesses -/

/-- An entry point that does nothing and reports general failure (null). -/
def nullEntry : EntryPoint := fun _ h => (none, h)

/-- Heap holding the two stored default values `1` (address 0) and `2`
(address 1) of `exSig`. -/
def exHeap : Heap := ⟨[some 1, some 2]⟩

/-- The spec's running example: a signature with parameters
`a` (default `1`, stored at address 0) and `b` (default `2`, stored at
address 1), over an arbitrary entry point `g`. -/
def exSig (g : EntryPoint) : FuncDescObj :=
  ⟨g, [⟨"a", .porINTEGER, some 0⟩, ⟨"b", .porINTEGER, some 1⟩]⟩

/-- A pending call for `exSig`, freshly constructed over `exHeap`. -/
def exMake (g : EntryPoint) : CallFunctionObject × Heap :=
  CallFunctionObject.make "f" (exSig g) exHeap

/-- The heap after constructing `exMake`: the two stored defaults plus their
two fresh copies at addresses 2 and 3. -/
def exHeap1 : Heap := ⟨[some 1, some 2, some 1, some 2]⟩

/-- The spec's named-binding example: on a fresh pending call for `exSig`,
jump to parameter `b` by name and bind a newly allocated value `5` there. -/
def exBound (g : EntryPoint) :
    Except ErrorKind (CallFunctionObject × Heap × Option ErrorKind) :=
  let mc := exMake g
  let c1 := mc.1.SetCurrParamIndex (mc.1.FindParamName "b")
  let av := mc.2.alloc 5
  c1.SetCurrParam av.1 av.2

/-- The heap after `exBound`: `b`'s seeded default copy (address 3) has been
released and the bound value `5` lives at address 4. -/
def exHeap2 : Heap := ⟨[some 1, some 2, some 1, none, some 5]⟩

/-- Signature with three parameters `x`, `y`, `z` and no defaults. -/
def exSigXYZ : FuncDescObj :=
  ⟨nullEntry, [⟨"x", .porINTEGER, none⟩, ⟨"y", .porINTEGER, none⟩,
               ⟨"z", .porINTEGER, none⟩]⟩

/-- The empty heap. -/
def emptyHeap : Heap := ⟨[]⟩

/-- A pending call for `exSigXYZ` whose cursor has run past the last
parameter (three sequential binds would put it at 3 = the parameter
count). -/
def exOver : CallFunctionObject :=
  (CallFunctionObject.make "f" exSigXYZ emptyHeap).1.SetCurrParamIndex 3

/-! ## Helper lemmas -/

theorem Heap.read_none_of_le {h : Heap} {a : Addr} (ha : h.data.length ≤ a) :
    h.read a = none :=
  List.getD_eq_default _ _ ha

theorem Heap.lt_of_read_eq_some {h : Heap} {a : Addr} {v : Int}
    (hv : h.read a = some v) : a < h.data.length := by
  by_contra hlt
  rw [Heap.read_none_of_le (Nat.le_of_not_lt hlt)] at hv
  exact Option.noConfusion hv

theorem Heap.read_alloc_self (h : Heap) (v : Int) :
    (h.alloc v).2.read (h.alloc v).1 = some v := by
  show Heap.read ⟨h.data ++ [some v]⟩ h.data.length = some v
  show (h.data ++ [some v]).getD h.data.length none = some v
  rw [List.getD_append_right _ _ _ _ (Nat.le_refl _), Nat.sub_self]
  rfl

theorem Heap.read_alloc_lt (h : Heap) (v : Int) {a : Addr}
    (ha : a < h.data.length) : (h.alloc v).2.read a = h.read a := by
  show (h.data ++ [some v]).getD a none = h.data.getD a none
  exact List.getD_append _ _ _ _ ha

theorem Heap.read_write_ne (h : Heap) {a b : Addr} (v : Int) (hab : a ≠ b) :
    (h.write a v).read b = h.read b := by
  show ((h.data.set a (some v)).get? b).getD none = (h.data.get? b).getD none
  rw [List.get?_set_ne _ _ hab]

theorem Heap.read_extend {h h2 : Heap} {t : List (Option Int)}
    (he : h2.data = h.data ++ t) {a : Addr} (ha : a < h.data.length) :
    h2.read a = h.read a := by
  show h2.data.getD a none = h.data.getD a none
  rw [he]
  exact List.getD_append _ _ _ _ ha

theorem seedSlot_extends (pinfo : ParamInfoType) (h : Heap) :
    ∃ t, (seedSlot pinfo h).2.data = h.data ++ t := by
  cases hd : pinfo.DefaultValue with
  | none => exact ⟨[], by simp [seedSlot, hd]⟩
  | some a =>
    exact ⟨[some ((h.read a).getD 0)], by simp [seedSlot, hd, Portion.Copy, Heap.alloc]⟩

theorem seedSlots_extends (pis : List ParamInfoType) :
    ∀ h : Heap, ∃ t, (seedSlots pis h).2.data = h.data ++ t := by
  induction pis with
  | nil => exact fun h => ⟨[], by simp [seedSlots]⟩
  | cons pinfo rest ih =>
    intro h
    obtain ⟨t1, ht1⟩ := seedSlot_extends pinfo h
    obtain ⟨t2, ht2⟩ := ih (seedSlot pinfo h).2
    exact ⟨t1 ++ t2, by simp only [seedSlots, ht2, ht1, List.append_assoc]⟩

theorem seedSlots_length (pis : List ParamInfoType) :
    ∀ h : Heap, (seedSlots pis h).1.length = pis.length := by
  induction pis with
  | nil => intro h; rfl
  | cons pinfo rest ih => intro h; simp [seedSlots, ih]

/-- The central seeding property of the `CallFunctionObject` constructor
loop: slot `i` is empty exactly when parameter `i` has no default, and
otherwise holds a fresh (newly allocated) address whose payload equals the
stored default's payload. -/
theorem seedSlots_spec (pis : List ParamInfoType) :
    ∀ (h : Heap),
      (∀ pinfo ∈ pis, ∀ a, pinfo.DefaultValue = some a → (h.read a).isSome) →
      ∀ i (hi : i < pis.length),
        ((pis.get ⟨i, hi⟩).DefaultValue = none →
          (seedSlots pis h).1.get? i = some none) ∧
        (∀ a, (pis.get ⟨i, hi⟩).DefaultValue = some a →
          ∃ a', (seedSlots pis h).1.get? i = some (some a') ∧
            h.data.length ≤ a' ∧ (seedSlots pis h).2.read a' = h.read a) := by
  induction pis with
  | nil => intro h _ i hi; exact absurd hi (Nat.not_lt_zero i)
  | cons pinfo rest ih =>
    intro h hvalid i hi
    obtain ⟨text, hext⟩ := seedSlots_extends rest (seedSlot pinfo h).2
    obtain ⟨t1, ht1⟩ := seedSlot_extends pinfo h
    cases i with
    | zero =>
      constructor
      · intro hnone
        simp only [List.get] at hnone
        simp [seedSlots, seedSlot, hnone]
      · intro a ha
        simp only [List.get] at ha
        obtain ⟨v, hv⟩ := Option.isSome_iff_exists.mp (hvalid pinfo (.head rest) a ha)
        refine ⟨h.data.length, ?_, Nat.le_refl _, ?_⟩
        · simp [seedSlots, seedSlot, ha, Portion.Copy, Heap.alloc]
        · show (seedSlots rest (seedSlot pinfo h).2).2.read h.data.length = h.read a
          have hlt : h.data.length < (seedSlot pinfo h).2.data.length := by
            simp [seedSlot, ha, Portion.Copy, Heap.alloc]
          rw [Heap.read_extend hext hlt]
          have : (seedSlot pinfo h).2.read h.data.length = some ((h.read a).getD 0) := by
            simp only [seedSlot, ha]
            exact Heap.read_alloc_self h _
          rw [this, hv]
          rfl
    | succ j =>
      have hj : j < rest.length := Nat.lt_of_succ_lt_succ hi
      have hvalid' : ∀ pinfo2 ∈ rest, ∀ a, pinfo2.DefaultValue = some a →
          ((seedSlot pinfo h).2.read a).isSome := by
        intro pinfo2 hmem a ha
        have hs := hvalid pinfo2 (.tail _ hmem) a ha
        obtain ⟨v, hv⟩ := Option.isSome_iff_exists.mp hs
        rw [Heap.read_extend ht1 (Heap.lt_of_read_eq_some hv), hv]
        rfl
      have ihj := ih (seedSlot pinfo h).2 hvalid' j hj
      constructor
      · intro hnone
        simp only [List.get] at hnone
        show ((seedSlot pinfo h).1 :: (seedSlots rest (seedSlot pinfo h).2).1).get? (j + 1)
          = some none
        exact ihj.1 hnone
      · intro a ha
        simp only [List.get] at ha
        obtain ⟨a', hget, hle, hread⟩ := ihj.2 a ha
        have hmem : rest.get ⟨j, hj⟩ ∈ pinfo :: rest :=
          .tail _ (rest.get_mem _ _)
        obtain ⟨v, hv⟩ := Option.isSome_iff_exists.mp (hvalid _ hmem a ha)
        refine ⟨a', hget, ?_, ?_⟩
        · calc h.data.length ≤ (seedSlot pinfo h).2.data.length := by
                rw [ht1]; simp
            _ ≤ a' := hle
        · show (seedSlots rest (seedSlot pinfo h).2).2.read a' = h.read a
          rw [hread]
          exact Heap.read_extend ht1 (Heap.lt_of_read_eq_some hv)

theorem callLoop_all_some (f : FuncDescObj) (fn : String) :
    ∀ (l : List (Option Addr)) (s : Nat), (∀ x ∈ l, x ≠ none) →
      CallFunctionObject.callLoop f fn s l = none := by
  intro l
  induction l with
  | nil => intro s _; rfl
  | cons x rest ih =>
    intro s hall
    cases x with
    | none => exact absurd rfl (hall none (.head rest))
    | some a => exact ih (s + 1) (fun y hy => hall y (.tail _ hy))

/-- The completeness loop stops at the *first* null slot and names the
parameter at that index (offset by the start index `s`). -/
theorem callLoop_first_missing (f : FuncDescObj) (fn : String) :
    ∀ (l : List (Option Addr)) (s : Nat), none ∈ l →
      ∃ j, j < l.length ∧ l.get? j = some none ∧
        (∀ k, k < j → l.get? k ≠ some none) ∧
        CallFunctionObject.callLoop f fn s l =
          some (.MissingRequiredParameter fn
            (CallFunctionObject.paramNameD f (s + j))) := by
  intro l
  induction l with
  | nil => intro s hmem; exact absurd hmem (List.not_mem_nil none)
  | cons x rest ih =>
    intro s hmem
    cases x with
    | none =>
      exact ⟨0, Nat.succ_pos _, rfl,
        fun k hk => absurd hk (Nat.not_lt_zero k), rfl⟩
    | some a =>
      have hmem' : none ∈ rest := by
        cases hmem with
        | tail _ hmem2 => exact hmem2
      obtain ⟨j, hj, hget, hfirst, hloop⟩ := ih (s + 1) hmem'
      refine ⟨j + 1, Nat.succ_lt_succ hj, hget, ?_, ?_⟩
      · intro k hk
        cases k with
        | zero => simp
        | succ k2 => exact hfirst k2 (Nat.lt_of_succ_lt_succ hk)
      · show CallFunctionObject.callLoop f fn (s + 1) rest = _
        rw [hloop]
        have : s + 1 + j = s + (j + 1) := by omega
        rw [this]

/-- Lemma: `List.findIdx?` returns the position of the first element satisfying the
predicate (offset by the start index `s`). -/
theorem findIdx?_first {α : Type} (p : α → Bool) :
    ∀ (l : List α) (s i : Nat) (hi : i < l.length),
      p (l.get ⟨i, hi⟩) = true →
      (∀ k (hk : k < i), p (l.get ⟨k, Nat.lt_trans hk hi⟩) = false) →
      List.findIdx? p l s = some (s + i) := by
  intro l
  induction l with
  | nil => intro s i hi; exact absurd hi (Nat.not_lt_zero i)
  | cons x rest ih =>
    intro s i hi hp hfirst
    cases i with
    | zero =>
      have hp2 : p x = true := hp
      rw [List.findIdx?_cons, if_pos hp2, Nat.add_zero]
    | succ j =>
      have hp2 : p (rest.get ⟨j, Nat.lt_of_succ_lt_succ hi⟩) = true := hp
      have hpx : p x = false := hfirst 0 (Nat.succ_pos j)
      rw [List.findIdx?_cons, if_neg (by simp [hpx]),
        ih (s + 1) j (Nat.lt_of_succ_lt_succ hi) hp2
          (fun k hk => hfirst (k + 1) (Nat.succ_lt_succ hk))]
      have : s + 1 + j = s + (j + 1) := by omega
      rw [this]

/-! ## Claims -/

/-- C1: declaring a parameter whose name duplicates the name of a parameter
already declared in the same signature reports `DuplicateParameterName`
(naming that parameter), and the failed declaration yields no updated
signature — the name, type and default stored at the target index remain
those of `f`. -/
theorem setParamInfo_duplicate_name (f : FuncDescObj) (index : Int)
    (name : String) (typ : PortionType) (dv : Option Addr)
    (hidx : 0 ≤ index ∧ index < (f.ParamInfo.length : Int))
    (hdup : ∃ pinfo ∈ f.ParamInfo, pinfo.Name = name) :
    f.SetParamInfo index name typ dv = .error (.DuplicateParameterName name) ∧
    ∀ g, f.SetParamInfo index name typ dv ≠ .ok g := by
  obtain ⟨pinfo, hmem, hname⟩ := hdup
  have hany : f.ParamInfo.any (fun pinfo2 => pinfo2.Name = name) = true :=
    List.any_eq_true.mpr ⟨pinfo, hmem, decide_eq_true hname⟩
  have : f.SetParamInfo index name typ dv
      = .error (.DuplicateParameterName name) := by
    rw [FuncDescObj.SetParamInfo, if_pos hidx, if_pos hany]
  exact ⟨this, fun g hg => by rw [this] at hg; exact Except.noConfusion hg⟩

/-- C1 witness: on the signature with parameters `x`, `y`, `z`, re-declaring
slot 2 under the already-used name `y` fails with `DuplicateParameterName`. -/
theorem setParamInfo_duplicate_name_witness :
    exSigXYZ.SetParamInfo 2 "y" .porINTEGER none
      = .error (.DuplicateParameterName "y") :=
  (setParamInfo_duplicate_name exSigXYZ 2 "y" .porINTEGER none (by decide)
    ⟨⟨"y", .porINTEGER, none⟩, by decide, rfl⟩).1

/-- C2: executing a pending call in which at least one slot is empty reports
`MissingRequiredParameter` naming both the function and the first empty
parameter, returns no result (null), leaves the heap untouched, and never
invokes the entry point (the instrumented invocation count is 0). -/
theorem callFunction_missing_param (c : CallFunctionObject) (h : Heap)
    (hmem : none ∈ c.param) :
    ∃ j, j < c.param.length ∧ c.param.get? j = some none ∧
      (∀ k, k < j → c.param.get? k ≠ some none) ∧
      c.CallFunction h = (none, h,
        some (.MissingRequiredParameter c.func_name
          (CallFunctionObject.paramNameD c.func_desc_obj j)), 0) := by
  obtain ⟨j, hj, hget, hfirst, hloop⟩ :=
    callLoop_first_missing c.func_desc_obj c.func_name c.param 0 hmem
  rw [Nat.zero_add] at hloop
  refine ⟨j, hj, hget, hfirst, ?_⟩
  rw [CallFunctionObject.CallFunction, hloop]

/-- C2 witness: a fresh pending call for the default-free signature
`[x, y, z]` executes to a `MissingRequiredParameter` report naming `f` and
`x`, with no result and zero entry-point invocations. -/
theorem callFunction_missing_param_witness :
    ∃ j, j < (CallFunctionObject.make "f" exSigXYZ emptyHeap).1.param.length ∧
      (CallFunctionObject.make "f" exSigXYZ emptyHeap).1.param.get? j
        = some none ∧
      (∀ k, k < j →
        (CallFunctionObject.make "f" exSigXYZ emptyHeap).1.param.get? k
          ≠ some none) ∧
      (CallFunctionObject.make "f" exSigXYZ emptyHeap).1.CallFunction emptyHeap
        = (none, emptyHeap,
          some (.MissingRequiredParameter "f"
            (CallFunctionObject.paramNameD exSigXYZ j)), 0) :=
  callFunction_missing_param
    (CallFunctionObject.make "f" exSigXYZ emptyHeap).1 emptyHeap (by decide)

/-- C10: a pending call for a signature declared with zero parameters has an
empty slot list, leaves the heap untouched at construction, and executing it
immediately invokes the entry point exactly once on the empty argument
sequence, returning exactly the entry point's result with no
`MissingRequiredParameter` (or any other) report. -/
theorem callFunction_zero_params (g : EntryPoint) (name : String) (h : Heap) :
    (CallFunctionObject.make name (FuncDescObj.make g 0) h).1.param = [] ∧
    (CallFunctionObject.make name (FuncDescObj.make g 0) h).2 = h ∧
    (CallFunctionObject.make name (FuncDescObj.make g 0) h).1.CallFunction h
      = ((g [] h).1, (g [] h).2, none, 1) :=
  ⟨rfl, rfl, rfl⟩

/-- C3: constructing a pending call seeds slot `i` with a *fresh* copy of
parameter `i`'s declared default (an address not allocated before the
construction, holding the same payload) or leaves the slot empty when no
default exists, and starts the cursor at 0.  Consequently, the pending call
for the signature `[a (default 1), b (default 2)]`, executed immediately,
invokes the entry point exactly once with the two copied arguments, whose
payloads are `1` and `2`. -/
theorem make_seeds_defaults (f : FuncDescObj) (name : String) (h : Heap)
    (hvalid : ∀ pinfo ∈ f.ParamInfo, ∀ a, pinfo.DefaultValue = some a →
      (h.read a).isSome) :
    (CallFunctionObject.make name f h).1.current_param_index = 0 ∧
    (CallFunctionObject.make name f h).1.param.length = f.NumParams ∧
    (∀ i (hi : i < f.ParamInfo.length),
      ((f.ParamInfo.get ⟨i, hi⟩).DefaultValue = none →
        (CallFunctionObject.make name f h).1.param.get? i = some none) ∧
      (∀ a, (f.ParamInfo.get ⟨i, hi⟩).DefaultValue = some a →
        ∃ a', (CallFunctionObject.make name f h).1.param.get? i
            = some (some a') ∧
          h.data.length ≤ a' ∧
          (CallFunctionObject.make name f h).2.read a' = h.read a)) ∧
    (∀ g : EntryPoint,
      (exMake g).1.CallFunction (exMake g).2
        = ((g [some 2, some 3] exHeap1).1, (g [some 2, some 3] exHeap1).2,
           none, 1) ∧
      exHeap1.read 2 = some 1 ∧ exHeap1.read 3 = some 2) :=
  ⟨rfl, seedSlots_length f.ParamInfo h, seedSlots_spec f.ParamInfo h hvalid,
   fun _ => ⟨rfl, rfl, rfl⟩⟩

/-- C3 witness: in the pending call for `exSig` (parameter `b` has default
`2`, stored at address 1), slot 1 holds a fresh address (≥ 2, past the
original heap) whose payload equals the stored default's. -/
theorem make_seeds_defaults_witness :
    ∃ a', (CallFunctionObject.make "f" (exSig nullEntry) exHeap).1.param.get? 1
        = some (some a') ∧
      exHeap.data.length ≤ a' ∧
      (CallFunctionObject.make "f" (exSig nullEntry) exHeap).2.read a'
        = exHeap.read 1 :=
  ((make_seeds_defaults (exSig nullEntry) "f" exHeap (by decide)).2.2.1
    1 (by decide)).2 1 rfl

/-- C4: with the cursor in range, `SetCurrParam` releases the value
currently occupying the slot at the cursor (the heap cell is freed when the
slot was non-empty, untouched otherwise), stores the new value there,
advances the cursor by exactly one, and leaves every other slot unchanged.
In particular, on `[a (default 1), b (default 2)]`, jumping to `b` by name,
binding `5` and executing invokes the entry point once with payloads
`[1, 5]`. -/
theorem setCurrParam_binds (c : CallFunctionObject) (v : Addr) (h : Heap)
    (h0 : 0 ≤ c.current_param_index)
    (hlt : c.current_param_index < (c.func_desc_obj.NumParams : Int)) :
    (∃ h1, c.SetCurrParam v h = .ok
        (⟨c.func_name, c.func_desc_obj,
          c.param.set c.current_param_index.toNat (some v),
          c.current_param_index + 1⟩, h1, none) ∧
      (c.param.getD c.current_param_index.toNat none = none → h1 = h) ∧
      (∀ old, c.param.getD c.current_param_index.toNat none = some old →
        h1 = h.free old)) ∧
    (∀ j, j ≠ c.current_param_index.toNat →
      (c.param.set c.current_param_index.toNat (some v)).get? j
        = c.param.get? j) ∧
    (∀ g : EntryPoint,
      exBound g = .ok (⟨"f", exSig g, [some 2, some 4], 2⟩, exHeap2, none) ∧
      CallFunctionObject.CallFunction ⟨"f", exSig g, [some 2, some 4], 2⟩
          exHeap2
        = ((g [some 2, some 4] exHeap2).1, (g [some 2, some 4] exHeap2).2,
           none, 1) ∧
      exHeap2.read 2 = some 1 ∧ exHeap2.read 4 = some 5) := by
  refine ⟨?_, fun j hj => List.get?_set_ne _ _ (Ne.symm hj),
    fun _ => ⟨rfl, rfl, rfl, rfl⟩⟩
  cases hc : c.param.getD c.current_param_index.toNat none with
  | none =>
    refine ⟨h, ?_, fun _ => rfl, fun old hold => Option.noConfusion hold⟩
    simp only [CallFunctionObject.SetCurrParam, if_pos hlt, if_pos h0, hc]
  | some old =>
    refine ⟨h.free old, ?_, fun hnone => Option.noConfusion hnone,
      fun old2 hold2 => by rw [Option.some.inj hold2]⟩
    simp only [CallFunctionObject.SetCurrParam, if_pos hlt, if_pos h0, hc]

/-- C4 witness: binding address 9 on a fresh pending call for `exSig`
(cursor 0, slot 0 holding the seeded copy at address 2) stores it at slot 0,
frees address 2, and moves the cursor to 1. -/
theorem setCurrParam_binds_witness :
    (exMake nullEntry).1.SetCurrParam 9 exHeap1
      = .ok (⟨"f", exSig nullEntry, [some 9, some 3], 1⟩,
             exHeap1.free 2, none) := by
  obtain ⟨h1, heq, _, hsome⟩ :=
    (setCurrParam_binds (exMake nullEntry).1 9 exHeap1 (by decide)
      (by decide)).1
  rw [hsome 2 rfl] at heq
  exact heq

/-- C5: with the cursor at or past the parameter count, the
too-many-parameters report changes no state: `GetCurrParamType` reports
`TooManyParameters` (naming the function) and returns the `porERROR` marker
instead of failing the call, and `SetCurrParam` reports `TooManyParameters`
while the pending call — every bound slot and the cursor — and the heap
remain exactly unchanged. -/
theorem tooManyParameters_preserves_state (c : CallFunctionObject)
    (hge : (c.func_desc_obj.NumParams : Int) ≤ c.current_param_index) :
    c.GetCurrParamType
      = .ok (.porERROR, some (.TooManyParameters c.func_name)) ∧
    ∀ v h, c.SetCurrParam v h
      = .ok (c, h, some (.TooManyParameters c.func_name)) := by
  constructor
  · rw [CallFunctionObject.GetCurrParamType, if_neg (not_lt.mpr hge)]
  · intro v h
    rw [CallFunctionObject.SetCurrParam, if_neg (not_lt.mpr hge)]

/-- C5 witness: a pending call for `[x, y, z]` whose cursor sits at 3 (the
parameter count) reports `TooManyParameters` from both operations, with the
call object and heap returned unchanged. -/
theorem tooManyParameters_preserves_state_witness :
    exOver.GetCurrParamType
      = .ok (.porERROR, some (.TooManyParameters "f")) ∧
    ∀ v h, exOver.SetCurrParam v h
      = .ok (exOver, h, some (.TooManyParameters "f")) :=
  tooManyParameters_preserves_state exOver (by decide)

/-- C8: `SetCurrParamIndex` repositions the cursor to exactly the given
index — any integer, with no bounds validation — `GetCurrParamIndex`
immediately afterwards returns that same index, and nothing else of the
pending call changes. -/
theorem setCurrParamIndex_unchecked (c : CallFunctionObject) (i : Int) :
    (c.SetCurrParamIndex i).current_param_index = i ∧
    (c.SetCurrParamIndex i).GetCurrParamIndex = i ∧
    (c.SetCurrParamIndex i).param = c.param ∧
    (c.SetCurrParamIndex i).func_name = c.func_name ∧
    (c.SetCurrParamIndex i).func_desc_obj = c.func_desc_obj :=
  ⟨rfl, rfl, rfl, rfl, rfl⟩

/-- C9: `FindParamName` returns `-1` ("not found", no error of any kind)
when no declared parameter bears the given name, and the declared index of
the first parameter that does; the pending call's `FindParamName` gives the
same answer as the underlying signature's, and on `[x, y, z]` the name `y`
resolves to index 1. -/
theorem findParamName_resolves (f : FuncDescObj) (name : String)
    (c : CallFunctionObject) :
    ((∀ pinfo ∈ f.ParamInfo, pinfo.Name ≠ name) →
      f.FindParamName name = -1) ∧
    (∀ i (hi : i < f.ParamInfo.length),
      (f.ParamInfo.get ⟨i, hi⟩).Name = name →
      (∀ k (hk : k < i), (f.ParamInfo.get ⟨k, Nat.lt_trans hk hi⟩).Name ≠ name) →
      f.FindParamName name = (i : Int)) ∧
    c.FindParamName name = c.func_desc_obj.FindParamName name ∧
    exSigXYZ.FindParamName "y" = 1 ∧
    exSigXYZ.FindParamName "w" = -1 := by
  refine ⟨?_, ?_, rfl, rfl, rfl⟩
  · intro hnone
    have hidx : f.ParamInfo.findIdx? (fun pinfo => pinfo.Name = name) = none :=
      List.findIdx?_eq_none_iff.mpr
        (fun pinfo hmem => decide_eq_false (hnone pinfo hmem))
    rw [FuncDescObj.FindParamName, hidx]
  · intro i hi hname hfirst
    have hidx : f.ParamInfo.findIdx? (fun pinfo => pinfo.Name = name) 0
        = some (0 + i) :=
      findIdx?_first _ f.ParamInfo 0 i hi (decide_eq_true hname)
        (fun k hk => decide_eq_false (hfirst k hk))
    rw [Nat.zero_add] at hidx
    rw [FuncDescObj.FindParamName, hidx]

/-- C9 witness: on the pending call for `[x, y, z]`, `y` resolves to 1 both
through the signature and through the call, and the undeclared `w` to -1. -/
theorem findParamName_resolves_witness :
    exSigXYZ.FindParamName "y" = ((1 : Nat) : Int) ∧
    (CallFunctionObject.make "f" exSigXYZ emptyHeap).1.FindParamName "w"
      = exSigXYZ.FindParamName "w" ∧
    exSigXYZ.FindParamName "w" = -1 :=
  ⟨(findParamName_resolves exSigXYZ "y"
      (CallFunctionObject.make "f" exSigXYZ emptyHeap).1).2.1 1 (by decide)
      rfl (by decide),
   (findParamName_resolves exSigXYZ "w"
      (CallFunctionObject.make "f" exSigXYZ emptyHeap).1).2.2.1,
   (findParamName_resolves exSigXYZ "w"
      (CallFunctionObject.make "f" exSigXYZ emptyHeap).1).1 (by decide)⟩

/-- C6: for an in-range index, `ParamDefaultValue` returns "absent" (null,
heap untouched) when no default was declared there; otherwise it returns an
*independent copy* of the declared default: a different address than the
signature's stored default with the same payload, such that mutating either
never affects the other, and such that the copy handed out by any further
call is again a different address, mutations of which do not affect this
one. -/
theorem paramDefaultValue_independent_copy (f : FuncDescObj) (i : Int)
    (h : Heap) (hi : 0 ≤ i ∧ i < (f.ParamInfo.length : Int)) :
    ((f.ParamInfo.getD i.toNat ParamInfoType.init).DefaultValue = none →
      f.ParamDefaultValue i h = .ok (none, h)) ∧
    (∀ a v, (f.ParamInfo.getD i.toNat ParamInfoType.init).DefaultValue = some a →
      h.read a = some v →
      ∃ a' h', f.ParamDefaultValue i h = .ok (some a', h') ∧
        a' ≠ a ∧
        h'.read a' = some v ∧
        h'.read a = some v ∧
        (∀ w, (h'.write a' w).read a = h'.read a) ∧
        (∀ w, (h'.write a w).read a' = h'.read a') ∧
        (∀ a'' h'', f.ParamDefaultValue i h' = .ok (some a'', h'') →
          a'' ≠ a' ∧ ∀ w, (h''.write a'' w).read a' = h''.read a')) := by
  constructor
  · intro hnone
    rw [FuncDescObj.ParamDefaultValue, if_pos hi, hnone]
  · intro a v ha hv
    have hlt : a < h.data.length := Heap.lt_of_read_eq_some hv
    have heval : f.ParamDefaultValue i h
        = .ok (some h.data.length, (h.alloc v).2) := by
      rw [FuncDescObj.ParamDefaultValue, if_pos hi, ha]
      show Except.ok (some (Portion.Copy h a).1, (Portion.Copy h a).2) = _
      rw [Portion.Copy, hv]
      rfl
    refine ⟨h.data.length, (h.alloc v).2, heval, Nat.ne_of_gt hlt,
      Heap.read_alloc_self h v, ?_, ?_, ?_, ?_⟩
    · rw [Heap.read_alloc_lt h v hlt]
      exact hv
    · intro w
      exact Heap.read_write_ne _ w (Nat.ne_of_gt hlt)
    · intro w
      exact Heap.read_write_ne _ w (Nat.ne_of_lt hlt)
    · intro a'' h'' heq
      have hv2 : (h.alloc v).2.read a = some v := by
        rw [Heap.read_alloc_lt h v hlt]; exact hv
      have heval2 : f.ParamDefaultValue i (h.alloc v).2
          = .ok (some (h.alloc v).2.data.length, ((h.alloc v).2.alloc v).2) := by
        rw [FuncDescObj.ParamDefaultValue, if_pos hi, ha]
        show Except.ok (some (Portion.Copy (h.alloc v).2 a).1,
          (Portion.Copy (h.alloc v).2 a).2) = _
        rw [Portion.Copy, hv2]
        rfl
      rw [heval2] at heq
      obtain ⟨heq1, heq2⟩ := Prod.mk.injEq .. ▸ Except.ok.inj heq
      have ha2 : a'' = (h.alloc v).2.data.length := (Option.some.inj heq1).symm
      have hlen : (h.alloc v).2.data.length = h.data.length + 1 := by
        show (h.data ++ [some v]).length = h.data.length + 1
        simp
      constructor
      · rw [ha2, hlen]
        exact Nat.succ_ne_self h.data.length
      · intro w
        rw [← heq2]
        refine Heap.read_write_ne _ w ?_
        rw [ha2, hlen]
        exact Nat.succ_ne_self h.data.length

/-- C6 witness: on `exSig` (default of `a` stored at address 0, payload 1),
`ParamDefaultValue 0` hands out a copy at a different address with payload 1;
mutating either cell leaves the other's reading unchanged, and a second call
hands out yet another address independent of the first copy. -/
theorem paramDefaultValue_independent_copy_witness :
    ∃ a' h', (exSig nullEntry).ParamDefaultValue 0 exHeap = .ok (some a', h') ∧
      a' ≠ 0 ∧ h'.read a' = some 1 ∧ h'.read 0 = some 1 ∧
      (∀ w, (h'.write a' w).read 0 = h'.read 0) ∧
      (∀ w, (h'.write 0 w).read a' = h'.read a') ∧
      (∀ a'' h'',
        (exSig nullEntry).ParamDefaultValue 0 h' = .ok (some a'', h'') →
        a'' ≠ a' ∧ ∀ w, (h''.write a'' w).read a' = h''.read a') :=
  (paramDefaultValue_independent_copy (exSig nullEntry) 0 exHeap
    (by decide)).2 0 1 rfl rfl

/-- C7 counterexample: the code enforces no tie between the numeric
meta-kind and the absence of a default.  A single `SetParamInfo` call
declaring a `porNUMERICAL` parameter *with* a default value succeeds, and
the resulting signature stores that parameter with both the meta-kind and
the default — so a sequence of declarations *can* produce a meta-kind
parameter carrying a default. -/
theorem setParamInfo_metakind_accepts_default :
    ((FuncDescObj.make nullEntry 1).SetParamInfo 0 "n" .porNUMERICAL
        (some 0)).map FuncDescObj.ParamInfo
      = .ok [⟨"n", .porNUMERICAL, some 0⟩] := rfl

/-- C7 (amended): `SetParamInfo` performs no check relating the declared
type to the default: declaring a `porNUMERICAL` parameter with a default at
a valid, non-duplicate slot succeeds and stores name, meta-kind and default
verbatim.  The "no default for the numeric meta-kind" rule is a documented
obligation on native-function authors, not an invariant the code
maintains. -/
theorem setParamInfo_metakind_default_unchecked (f : FuncDescObj)
    (index : Int) (name : String) (dv : Addr)
    (hidx : 0 ≤ index ∧ index < (f.ParamInfo.length : Int))
    (hnodup : ∀ pinfo ∈ f.ParamInfo, pinfo.Name ≠ name) :
    f.SetParamInfo index name .porNUMERICAL (some dv)
      = .ok ⟨f.function,
          f.ParamInfo.set index.toNat ⟨name, .porNUMERICAL, some dv⟩⟩ ∧
    (f.ParamInfo.set index.toNat ⟨name, .porNUMERICAL, some dv⟩).get?
        index.toNat
      = some ⟨name, .porNUMERICAL, some dv⟩ := by
  have hany : f.ParamInfo.any (fun pinfo => pinfo.Name = name) = false := by
    rw [List.any_eq_false]
    intro pinfo hmem
    simp [hnodup pinfo hmem]
  constructor
  · rw [FuncDescObj.SetParamInfo, if_pos hidx, hany]
    rfl
  · exact List.get?_set_eq_of_lt _ (by omega)

/-- C7 amended witness: declaring `n : porNUMERICAL` with default address 0
on a fresh one-parameter signature stores exactly that parameter. -/
theorem setParamInfo_metakind_default_unchecked_witness :
    (FuncDescObj.make nullEntry 1).SetParamInfo 0 "n" .porNUMERICAL (some 0)
      = .ok ⟨nullEntry,
          (FuncDescObj.make nullEntry 1).ParamInfo.set 0
            ⟨"n", .porNUMERICAL, some 0⟩⟩ ∧
    ((FuncDescObj.make nullEntry 1).ParamInfo.set 0
        ⟨"n", .porNUMERICAL, some 0⟩).get? 0
      = some ⟨"n", .porNUMERICAL, some 0⟩ :=
  setParamInfo_metakind_default_unchecked (FuncDescObj.make nullEntry 1)
    0 "n" 0 (by decide) (by decide)
